import Mathlib

/-!
Shallow embedding of the `portrange` Go package (src/ports.go).

A `PortRange` is a struct of two `uint16` ports and a `uint8` protocol tag.
We model the machine integers as `Nat`; the only arithmetic the source
performs is `p.maxPort + 1` inside `Adjacent`, which in Go is `uint16`
addition and therefore wraps modulo 2^16 — the embedding keeps that
`% 65536` explicitly.  Mutating methods (`Overlap`, `MergeWith`) take the
receiver and the destination and return the error slot together with the
new destination value; the receiver is never written by the source, so it
is simply not returned.
-/

namespace Portrange

/-- Protocol constants from the source: `ProtoInvalid = 0`, `ProtoTcp = 6`,
`ProtoUdp = 17`. -/
def ProtoInvalid : Nat := 0

def ProtoTcp : Nat := 6

def ProtoUdp : Nat := 17

/-- The three error values `ErrBadRange`, `ErrBadProto`, `ErrDisjointRanges`. -/
inductive Err where
  | badRange
  | badProto
  | disjointRanges
deriving DecidableEq, Repr

/-- The `PortRange` struct: `minPort, maxPort uint16`, `proto uint8`. -/
structure PortRange where
  minPort : Nat
  maxPort : Nat
  proto : Nat
deriving DecidableEq, Repr

/-- Field-width bounds of the Go struct: the ports are `uint16` values and
the protocol tag is a `uint8` value. -/
def PortRange.wf (p : PortRange) : Prop :=
  p.minPort < 65536 ∧ p.maxPort < 65536 ∧ p.proto < 256

instance (p : PortRange) : Decidable p.wf := by
  unfold PortRange.wf
  infer_instance

/-- `Validate` from src/ports.go lines 55-66: `BadRange` when a port is zero
or `minPort > maxPort`, then `BadProto` when the protocol is neither TCP nor
UDP, else no error. -/
def Validate (p : PortRange) : Option Err :=
  if p.minPort = 0 ∨ p.maxPort = 0 then some .badRange
  else if p.minPort > p.maxPort then some .badRange
  else if p.proto ≠ ProtoTcp ∧ p.proto ≠ ProtoUdp then some .badProto
  else none

/-- `New` from src/ports.go lines 44-51: builds the struct from the three
arguments and returns it unless `Validate` reports an error. -/
def New (minPort maxPort proto : Nat) : Except Err PortRange :=
  let p : PortRange := ⟨minPort, maxPort, proto⟩
  match Validate p with
  | some e => Except.error e
  | none => Except.ok p

/-- `Overlaps` from src/ports.go lines 70-81: same protocol and the closed
intervals intersect. -/
def Overlaps (p o : PortRange) : Bool :=
  if p.proto ≠ o.proto then false
  else if p.minPort > o.maxPort then false
  else if o.minPort > p.maxPort then false
  else true

/-- `Adjacent` from src/ports.go lines 85-99: same protocol, not overlapping,
and one range's `maxPort + 1` equals the other's `minPort`.  The `+ 1` is Go
`uint16` addition, hence the explicit `% 65536`. -/
def Adjacent (p o : PortRange) : Bool :=
  if p.proto ≠ o.proto then false
  else if Overlaps p o then false
  else if (p.maxPort + 1) % 65536 = o.minPort then true
  else if (o.maxPort + 1) % 65536 = p.minPort then true
  else false

/-- `Overlap` from src/ports.go lines 104-119: when the ranges overlap,
rewrites the destination `o` to the intersection bounds; otherwise returns
`ErrDisjointRanges` leaving `o` as it was. -/
def Overlap (p o : PortRange) : Option Err × PortRange :=
  if ¬ Overlaps p o then (some .disjointRanges, o)
  else
    let minPort := if o.minPort > p.minPort then o.minPort else p.minPort
    let maxPort := if o.maxPort < p.maxPort then o.maxPort else p.maxPort
    (none, { o with minPort := minPort, maxPort := maxPort })

/-- `MergeWith` from src/ports.go lines 124-135: when the ranges overlap or
are adjacent, widens the destination `o` to cover both; otherwise returns
`ErrDisjointRanges` leaving `o` as it was. -/
def MergeWith (p o : PortRange) : Option Err × PortRange :=
  if Overlaps p o || Adjacent p o then
    let o1 := if o.minPort > p.minPort then { o with minPort := p.minPort } else o
    let o2 := if o1.maxPort < p.maxPort then { o1 with maxPort := p.maxPort } else o1
    (none, o2)
  else (some .disjointRanges, o)

/-- `EntirelyLessThan` from src/ports.go lines 139-150: true outright when
`p.proto < o.proto`, false when the ranges overlap, else true iff
`p.maxPort < o.minPort`. -/
def EntirelyLessThan (p o : PortRange) : Bool :=
  if p.proto < o.proto then true
  else if Overlaps p o then false
  else if p.maxPort < o.minPort then true
  else false

/-- The `if` the source uses to pick the larger of two ports is `max`. -/
theorem ite_gt_max (a b : Nat) : (if b > a then b else a) = max a b := by
  split_ifs <;> omega

/-- The `if` the source uses to pick the smaller of two ports is `min`. -/
theorem ite_lt_min (a b : Nat) : (if b < a then b else a) = min a b := by
  split_ifs <;> omega

/-- Closed form of `Overlap`: the intersection bounds on overlap, the error
and an untouched destination otherwise. -/
theorem Overlap_eq (S D : PortRange) :
    Overlap S D = if Overlaps S D then
        (none, ⟨max S.minPort D.minPort, min S.maxPort D.maxPort, D.proto⟩)
      else (some Err.disjointRanges, D) := by
  cases h : Overlaps S D
  · simp [Overlap, h]
  · simp [Overlap, h, ite_gt_max, ite_lt_min]

/-- Closed form of `MergeWith`: the union bounds on overlap or adjacency, the
error and an untouched destination otherwise. -/
theorem MergeWith_eq (S D : PortRange) :
    MergeWith S D = if Overlaps S D || Adjacent S D then
        (none, ⟨min S.minPort D.minPort, max S.maxPort D.maxPort, D.proto⟩)
      else (some Err.disjointRanges, D) := by
  cases h : Overlaps S D || Adjacent S D
  · simp [MergeWith, h]
  · simp only [MergeWith, h, if_true]
    split_ifs <;> simp_all [PortRange.mk.injEq] <;> omega

/-- C1: `New` succeeds exactly when both ports are non-zero, `minPort ≤ maxPort`
and the protocol is TCP(6) or UDP(17); otherwise it fails with exactly
`BadRange` for a bounds problem (zero port or `minPort > maxPort`, taking
priority) and with exactly `BadProto` otherwise; `Validate` classifies an
already-built value under the same conditions. -/
theorem new_validate_spec (minPort maxPort proto : Nat) :
    (New minPort maxPort proto = Except.ok ⟨minPort, maxPort, proto⟩ ↔
      (minPort ≠ 0 ∧ maxPort ≠ 0 ∧ minPort ≤ maxPort ∧ (proto = 6 ∨ proto = 17))) ∧
    (New minPort maxPort proto = Except.error Err.badRange ↔
      (minPort = 0 ∨ maxPort = 0 ∨ minPort > maxPort)) ∧
    (New minPort maxPort proto = Except.error Err.badProto ↔
      (minPort ≠ 0 ∧ maxPort ≠ 0 ∧ minPort ≤ maxPort ∧ proto ≠ 6 ∧ proto ≠ 17)) ∧
    (Validate ⟨minPort, maxPort, proto⟩ = none ↔
      (minPort ≠ 0 ∧ maxPort ≠ 0 ∧ minPort ≤ maxPort ∧ (proto = 6 ∨ proto = 17))) ∧
    (Validate ⟨minPort, maxPort, proto⟩ = some Err.badRange ↔
      (minPort = 0 ∨ maxPort = 0 ∨ minPort > maxPort)) ∧
    (Validate ⟨minPort, maxPort, proto⟩ = some Err.badProto ↔
      (minPort ≠ 0 ∧ maxPort ≠ 0 ∧ minPort ≤ maxPort ∧ proto ≠ 6 ∧ proto ≠ 17)) := by
  have h1 : Validate ⟨minPort, maxPort, proto⟩ = none ↔
      (minPort ≠ 0 ∧ maxPort ≠ 0 ∧ minPort ≤ maxPort ∧ (proto = 6 ∨ proto = 17)) := by
    unfold Validate ProtoTcp ProtoUdp
    split_ifs <;> simp_all <;> omega
  have h2 : Validate ⟨minPort, maxPort, proto⟩ = some Err.badRange ↔
      (minPort = 0 ∨ maxPort = 0 ∨ minPort > maxPort) := by
    unfold Validate ProtoTcp ProtoUdp
    split_ifs <;> simp_all <;> omega
  have h3 : Validate ⟨minPort, maxPort, proto⟩ = some Err.badProto ↔
      (minPort ≠ 0 ∧ maxPort ≠ 0 ∧ minPort ≤ maxPort ∧ proto ≠ 6 ∧ proto ≠ 17) := by
    unfold Validate ProtoTcp ProtoUdp
    split_ifs <;> simp_all <;> omega
  refine ⟨?_, ?_, ?_, h1, h2, h3⟩
  · rw [← h1]
    cases hv : Validate ⟨minPort, maxPort, proto⟩ <;> simp [New, hv]
  · rw [← h2]
    cases hv : Validate ⟨minPort, maxPort, proto⟩ <;> simp [New, hv]
  · rw [← h3]
    cases hv : Validate ⟨minPort, maxPort, proto⟩ <;> simp [New, hv]

/-- C5: `Overlaps` is true exactly when the protocols agree and the closed
intervals intersect; in particular ranges of different protocols never
overlap. -/
theorem overlaps_iff (A B : PortRange) :
    (Overlaps A B = true ↔
      (A.proto = B.proto ∧ ¬(A.minPort > B.maxPort) ∧ ¬(B.minPort > A.maxPort))) ∧
    (A.proto ≠ B.proto → Overlaps A B = false) := by
  unfold Overlaps
  split_ifs <;> simp_all

/-- C5 witness: a concrete overlapping same-protocol pair and a concrete
cross-protocol pair. -/
theorem overlaps_iff_witness :
    Overlaps ⟨16, 25, 6⟩ ⟨18, 27, 6⟩ = true ∧
    Overlaps ⟨16, 16, 6⟩ ⟨16, 16, 17⟩ = false :=
  ⟨(overlaps_iff ⟨16, 25, 6⟩ ⟨18, 27, 6⟩).1.2 (by decide),
   (overlaps_iff ⟨16, 16, 6⟩ ⟨16, 16, 17⟩).2 (by decide)⟩

/-- C8: `Overlaps` and `Adjacent` are both symmetric, for every pair of
ranges. -/
theorem overlaps_adjacent_symm (A B : PortRange) :
    Overlaps A B = Overlaps B A ∧ Adjacent A B = Adjacent B A := by
  unfold Adjacent Overlaps
  split_ifs <;> simp_all

/-- C2: when the ranges do not overlap, `Overlap` returns `DisjointRanges` and
the destination is returned unchanged; when they do, it succeeds and the
destination becomes `[max of mins, min of maxs]` with its protocol unchanged.
The receiver is not part of the returned state because the source never
writes it. -/
theorem overlap_spec (S D : PortRange) :
    (Overlaps S D = false → Overlap S D = (some Err.disjointRanges, D)) ∧
    (Overlaps S D = true →
      Overlap S D = (none, ⟨max S.minPort D.minPort, min S.maxPort D.maxPort, D.proto⟩)) := by
  refine ⟨fun h => ?_, fun h => ?_⟩
  · simp [Overlap, h]
  · simp [Overlap, h, ite_gt_max, ite_lt_min]

/-- C2 witness: a concrete disjoint pair left untouched with the error, and a
concrete overlapping pair intersected to exact bounds. -/
theorem overlap_spec_witness :
    Overlap ⟨17, 18, 17⟩ ⟨19, 21, 17⟩ = (some Err.disjointRanges, ⟨19, 21, 17⟩) ∧
    Overlap ⟨17, 20, 6⟩ ⟨18, 21, 6⟩ = (none, ⟨18, 20, 6⟩) := by
  have h1 := (overlap_spec ⟨17, 18, 17⟩ ⟨19, 21, 17⟩).1 (by decide)
  have h2 := (overlap_spec ⟨17, 20, 6⟩ ⟨18, 21, 6⟩).2 (by decide)
  exact ⟨h1, by simpa using h2⟩

/-- C3: when the ranges neither overlap nor are adjacent, `MergeWith` returns
`DisjointRanges` and the destination is returned unchanged; otherwise it
succeeds and the destination becomes `[min of mins, max of maxs]` with its
protocol unchanged.  The receiver is not part of the returned state because
the source never writes it. -/
theorem mergeWith_spec (S D : PortRange) :
    (Overlaps S D = false → Adjacent S D = false →
      MergeWith S D = (some Err.disjointRanges, D)) ∧
    (Overlaps S D = true ∨ Adjacent S D = true →
      MergeWith S D = (none, ⟨min S.minPort D.minPort, max S.maxPort D.maxPort, D.proto⟩)) := by
  refine ⟨fun h1 h2 => ?_, fun h => ?_⟩
  · simp [MergeWith, h1, h2]
  · have hor : (Overlaps S D || Adjacent S D) = true := by
      rcases h with h | h <;> simp [h]
    simp only [MergeWith, hor, if_true]
    split_ifs <;> simp_all [PortRange.mk.injEq] <;> omega

/-- C3 witness: a concrete disjoint pair left untouched with the error, and a
concrete adjacent pair merged to exact bounds. -/
theorem mergeWith_spec_witness :
    MergeWith ⟨17, 18, 17⟩ ⟨20, 21, 17⟩ = (some Err.disjointRanges, ⟨20, 21, 17⟩) ∧
    MergeWith ⟨17, 18, 17⟩ ⟨19, 21, 17⟩ = (none, ⟨17, 21, 17⟩) := by
  have h1 := (mergeWith_spec ⟨17, 18, 17⟩ ⟨20, 21, 17⟩).1 (by decide) (by decide)
  have h2 := (mergeWith_spec ⟨17, 18, 17⟩ ⟨19, 21, 17⟩).2 (Or.inr (by decide))
  exact ⟨h1, by simpa using h2⟩

/-- C4: `EntirelyLessThan` is true unconditionally when the receiver's
protocol tag is numerically smaller; otherwise it is false whenever the two
ranges overlap, and when they do not overlap it is true exactly when the
receiver's `maxPort` is below the other's `minPort`. -/
theorem entirelyLessThan_spec (P O : PortRange) :
    (P.proto < O.proto → EntirelyLessThan P O = true) ∧
    (O.proto ≤ P.proto → Overlaps P O = true → EntirelyLessThan P O = false) ∧
    (O.proto ≤ P.proto → Overlaps P O = false →
      (EntirelyLessThan P O = true ↔ P.maxPort < O.minPort)) := by
  unfold EntirelyLessThan
  split_ifs <;> simp_all

/-- C4 witness: the protocol short-circuit, an overlapping same-protocol pair,
and a strictly-below same-protocol pair. -/
theorem entirelyLessThan_spec_witness :
    EntirelyLessThan ⟨17, 20, 6⟩ ⟨18, 21, 17⟩ = true ∧
    EntirelyLessThan ⟨17, 20, 6⟩ ⟨18, 21, 6⟩ = false ∧
    EntirelyLessThan ⟨17, 21, 6⟩ ⟨24, 26, 6⟩ = true :=
  ⟨(entirelyLessThan_spec ⟨17, 20, 6⟩ ⟨18, 21, 17⟩).1 (by decide),
   (entirelyLessThan_spec ⟨17, 20, 6⟩ ⟨18, 21, 6⟩).2.1 (by decide) (by decide),
   ((entirelyLessThan_spec ⟨17, 21, 6⟩ ⟨24, 26, 6⟩).2.2 (by decide) (by decide)).2 (by decide)⟩

/-- C6: for ranges whose fields fit the struct widths and which satisfy the
construction invariant, `Adjacent` is true exactly when the protocols agree,
the ranges do not overlap, and the intervals are one unit apart in exact
integer arithmetic; and for every pair whatsoever, adjacency implies
non-overlap. -/
theorem adjacent_iff_one_apart :
    (∀ A B : PortRange, A.wf → B.wf → Validate A = none → Validate B = none →
      (Adjacent A B = true ↔
        (A.proto = B.proto ∧ Overlaps A B = false ∧
          (A.maxPort + 1 = B.minPort ∨ B.maxPort + 1 = A.minPort)))) ∧
    (∀ A B : PortRange, Adjacent A B = true → Overlaps A B = false) := by
  constructor
  · intro A B hwA hwB hvA hvB
    obtain ⟨hA1, hA2, hA3⟩ := hwA
    obtain ⟨hB1, hB2, hB3⟩ := hwB
    unfold Validate at hvA hvB
    split_ifs at hvA hvB
    unfold Adjacent
    split_ifs <;> simp_all <;> omega
  · intro A B h
    unfold Adjacent at h
    split_ifs at h <;> simp_all

/-- C6 witness: a concrete valid adjacent pair, and adjacency implying
non-overlap at a concrete pair. -/
theorem adjacent_iff_one_apart_witness :
    Adjacent ⟨16, 20, 6⟩ ⟨21, 26, 6⟩ = true ∧
    Overlaps ⟨17, 17, 6⟩ ⟨18, 18, 6⟩ = false := by
  have h := adjacent_iff_one_apart
  refine ⟨(h.1 ⟨16, 20, 6⟩ ⟨21, 26, 6⟩ (by decide) (by decide) (by decide)
    (by decide)).2 (by decide), ?_⟩
  exact h.2 ⟨17, 17, 6⟩ ⟨18, 18, 6⟩ (by decide)

/-- C7 counterexample: the claim quantifies over destination ranges that may
violate the construction invariant, explicitly including `minPort = 0`.  At
the range `{100, 65535, TCP}` against `{0, 50, TCP}` the Go `uint16` addition
wraps `65535 + 1` to `0`, the successor comparison matches the zero
`minPort`, and `Adjacent` does report adjacency. -/
theorem adjacent_wraparound_counterexample :
    (⟨100, 65535, 6⟩ : PortRange).maxPort = 65535 ∧
    (⟨0, 50, 6⟩ : PortRange).minPort = 0 ∧
    Adjacent ⟨100, 65535, 6⟩ ⟨0, 50, 6⟩ = true := by decide

/-- C7 amended: provided the other range's `minPort` is non-zero (which holds
for every range satisfying the construction invariant), a range ending at
65535 is never reported adjacent through the successor comparison: the
wrapped `65535 + 1` is `0`, which cannot match a non-zero `minPort`, so any
adjacency verdict can only come from the other comparison. -/
theorem adjacent_max_boundary (A B : PortRange) (hmax : A.maxPort = 65535)
    (hB : B.minPort ≠ 0) :
    (A.maxPort + 1) % 65536 ≠ B.minPort ∧
    (Adjacent A B = true → (B.maxPort + 1) % 65536 = A.minPort) := by
  constructor
  · omega
  · intro h
    unfold Adjacent at h
    split_ifs at h <;> simp_all

/-- C7 amended witness: at `{100, 65535, TCP}` against `{1, 50, TCP}` the
successor comparison does not fire and adjacency is not reported. -/
theorem adjacent_max_boundary_witness :
    ((⟨100, 65535, 6⟩ : PortRange).maxPort + 1) % 65536 ≠
      (⟨1, 50, 6⟩ : PortRange).minPort ∧
    (Adjacent ⟨100, 65535, 6⟩ ⟨1, 50, 6⟩ = true →
      ((⟨1, 50, 6⟩ : PortRange).maxPort + 1) % 65536 =
        (⟨100, 65535, 6⟩ : PortRange).minPort) :=
  adjacent_max_boundary ⟨100, 65535, 6⟩ ⟨1, 50, 6⟩ (by decide) (by decide)

/-- C9: when both operands satisfy the construction invariant, a successful
`Overlap` or `MergeWith` leaves a destination that still validates, and a
successful intersection always has ordered bounds,
`max of mins ≤ min of maxs`. -/
theorem mutators_preserve_invariant (S D : PortRange)
    (hS : Validate S = none) (hD : Validate D = none) :
    (∀ D' : PortRange, Overlap S D = (none, D') → Validate D' = none) ∧
    (∀ D' : PortRange, MergeWith S D = (none, D') → Validate D' = none) ∧
    (Overlaps S D = true → max S.minPort D.minPort ≤ min S.maxPort D.maxPort) := by
  unfold Validate at hS hD
  split_ifs at hS hD
  have hover : Overlaps S D = true →
      S.proto = D.proto ∧ S.minPort ≤ D.maxPort ∧ D.minPort ≤ S.maxPort := by
    intro h
    unfold Overlaps at h
    split_ifs at h <;> simp_all
  refine ⟨fun D' h => ?_, fun D' h => ?_, fun h => ?_⟩
  · rw [Overlap_eq] at h
    split_ifs at h with hc
    · obtain ⟨hp, hm1, hm2⟩ := hover hc
      simp only [Prod.mk.injEq] at h
      obtain ⟨-, h2⟩ := h
      subst h2
      unfold Validate
      split_ifs <;> simp_all <;> omega
    · simp at h
  · rw [MergeWith_eq] at h
    split_ifs at h with hc
    · simp only [Prod.mk.injEq] at h
      obtain ⟨-, h2⟩ := h
      subst h2
      unfold Validate
      split_ifs <;> simp_all <;> omega
    · simp at h
  · obtain ⟨hp, hm1, hm2⟩ := hover h
    omega

/-- C9 witness: concrete valid operands whose intersection and merge both
validate, and whose intersection bounds are ordered. -/
theorem mutators_preserve_invariant_witness :
    Validate (⟨18, 20, 6⟩ : PortRange) = none ∧
    Validate (⟨17, 21, 17⟩ : PortRange) = none ∧
    max 17 18 ≤ min 20 21 := by
  have h1 := mutators_preserve_invariant ⟨17, 20, 6⟩ ⟨18, 21, 6⟩ (by decide) (by decide)
  have h2 := mutators_preserve_invariant ⟨17, 18, 17⟩ ⟨19, 21, 17⟩ (by decide) (by decide)
  exact ⟨h1.1 ⟨18, 20, 6⟩ (by decide), h2.2.1 ⟨17, 21, 17⟩ (by decide),
    h1.2.2 (by decide)⟩

/-- C10: a concrete pair of valid ranges of different protocols where each is
entirely less than the other: `{100, 200, TCP}` is less by the protocol
short-circuit, while `{1, 5, UDP}` is less because the protocols differ (so
the ranges do not overlap) and its `maxPort` is below the other's
`minPort`. -/
theorem entirelyLessThan_both_ways :
    Validate (⟨100, 200, 6⟩ : PortRange) = none ∧
    Validate (⟨1, 5, 17⟩ : PortRange) = none ∧
    EntirelyLessThan ⟨100, 200, 6⟩ ⟨1, 5, 17⟩ = true ∧
    EntirelyLessThan ⟨1, 5, 17⟩ ⟨100, 200, 6⟩ = true := by decide

end Portrange
